import Mathlib

/-!
Verification of the crop-health index pipeline in src/evaluate.py.

A hyperspectral cube is a 3-dimensional numeric array indexed by
(row, column, band); the pipeline extracts fixed bands, computes two
normalized-difference index rasters, fuses them into a health-score
raster and summarises it with two threshold percentages.  Numeric
samples are modelled as rationals; a 2-D raster is a pixel function,
and a cube carries its band count so that out-of-range band access
can be modelled as `Option.none` (numpy raises IndexError).
-/

/-- A 2-dimensional raster: one numeric sample per (row, column) pixel. -/
abbrev Raster : Type := ℕ → ℕ → ℚ

/-- A hyperspectral cube: a band-axis length and per-(row, column, band)
samples.  `data[:, :, b]` is in range exactly when `b < bands`. -/
structure Cube where
  bands : ℕ
  data : ℕ → ℕ → ℕ → ℚ

/-- The denominator guard `1e-10` added in `calculate_ndvi` and
`calculate_ndwi` to avoid division by zero. -/
def eps : ℚ := 1 / 10 ^ 10

/-- Band extraction `data[:, :, b]`: the 2-D slice at band `b`, or `none`
when `b` is out of range of the band axis (numpy IndexError). -/
def getBand (c : Cube) (b : ℕ) : Option Raster :=
  if b < c.bands then some (fun i j => c.data i j b) else none

/-- The elementwise normalized difference `(a - b) / (a + b + 1e-10)`
shared by `calculate_ndvi` and `calculate_ndwi`. -/
def normalized_difference (a b : Raster) : Raster :=
  fun i j => (a i j - b i j) / (a i j + b i j + eps)

/-- `calculate_ndvi`: red band = `data[:, :, 50]`, NIR band = `data[:, :, 90]`,
result `(nir - red) / (nir + red + 1e-10)`. -/
def calculate_ndvi (c : Cube) : Option Raster :=
  (getBand c 50).bind fun red_band =>
    (getBand c 90).map fun nir_band =>
      normalized_difference nir_band red_band

/-- `calculate_ndwi`: NIR band = `data[:, :, 90]`, SWIR band = `data[:, :, 150]`,
result `(nir - swir) / (nir + swir + 1e-10)`. -/
def calculate_ndwi (c : Cube) : Option Raster :=
  (getBand c 90).bind fun nir_band =>
    (getBand c 150).map fun swir_band =>
      normalized_difference nir_band swir_band

/-- `np.clip(x, lo, hi) = min(max(x, lo), hi)`. -/
def np_clip (x lo hi : ℚ) : ℚ := min (max x lo) hi

/-- `create_health_map`: `health_score = ndvi * (1 - np.clip(ndwi, 0, 1))`. -/
def create_health_map (ndvi ndwi : Raster) : Raster :=
  fun i j => ndvi i j * (1 - np_clip (ndwi i j) 0 1)

/-- The pixel index set of an `r × c` raster. -/
def pixels (r c : ℕ) : Finset (ℕ × ℕ) := Finset.range r ×ˢ Finset.range c

/-- `healthy_area = np.mean(health_map > 0.6) * 100`: the number of pixels
with score strictly above 0.6, divided by the pixel count, times 100. -/
def healthy_area (r c : ℕ) (h : Raster) : ℚ :=
  (((pixels r c).filter (fun p => (6 : ℚ) / 10 < h p.1 p.2)).card : ℚ)
    / ((r : ℚ) * (c : ℚ)) * 100

/-- `stressed_area = np.mean(health_map < 0.3) * 100`: the number of pixels
with score strictly below 0.3, divided by the pixel count, times 100. -/
def stressed_area (r c : ℕ) (h : Raster) : ℚ :=
  (((pixels r c).filter (fun p => h p.1 p.2 < (3 : ℚ) / 10)).card : ℚ)
    / ((r : ℚ) * (c : ℚ)) * 100

/-- Clamp to [0, 1] as the spec describes it, written independently of
`np_clip` for comparison. -/
def clampSpec (x : ℚ) : ℚ := if x < 0 then 0 else if 1 < x then 1 else x

/-- The healthy percentage as the spec words it: the fraction of pixels
whose score is at least 0.6 (non-strict), times 100. -/
def healthy_area_spec (r c : ℕ) (h : Raster) : ℚ :=
  (((pixels r c).filter (fun p => (6 : ℚ) / 10 ≤ h p.1 p.2)).card : ℚ)
    / (((pixels r c).card : ℚ)) * 100

/-- The healthy percentage as amended: the fraction of pixels whose score
is strictly greater than 0.6, times 100, with the fraction taken over the
pixel set of the raster. -/
def healthy_area_amended (r c : ℕ) (h : Raster) : ℚ :=
  (((pixels r c).filter (fun p => (6 : ℚ) / 10 < h p.1 p.2)).card : ℚ)
    / (((pixels r c).card : ℚ)) * 100

/-- The stressed percentage as the spec words it (the strict comparison
matches the code here): the fraction of pixels whose score is strictly
less than 0.3, times 100. -/
def stressed_area_spec (r c : ℕ) (h : Raster) : ℚ :=
  (((pixels r c).filter (fun p => h p.1 p.2 < (3 : ℚ) / 10)).card : ℚ)
    / (((pixels r c).card : ℚ)) * 100

/-- The pixel set of an `r × c` raster has exactly `r * c` elements. -/
theorem pixels_card (r c : ℕ) : (pixels r c).card = r * c := by
  simp [pixels]

/-- C1: the fusion scorer returns, at every pixel, the vegetation index
multiplied by one minus the moisture index clamped to [0, 1]. -/
theorem c1_health_map_formula (ndvi ndwi : Raster) (i j : ℕ) :
    create_health_map ndvi ndwi i j = ndvi i j * (1 - clampSpec (ndwi i j)) := by
  unfold create_health_map np_clip clampSpec
  rcases lt_or_le (ndwi i j) 0 with h0 | h0
  · rw [if_pos h0, max_eq_right h0.le, min_eq_left zero_le_one]
  · rw [if_neg (not_lt.mpr h0), max_eq_left h0]
    rcases lt_or_le 1 (ndwi i j) with h1 | h1
    · rw [if_pos h1, min_eq_right h1.le]
    · rw [if_neg (not_lt.mpr h1), min_eq_left h1]

/-- C2 counterexample: on a 1×1 raster whose single score is exactly 0.6,
the code's strict comparison counts 0% healthy while the claim's
non-strict threshold would count 100%. -/
theorem c2_counterexample :
    healthy_area 1 1 (fun _ _ => 6 / 10) = 0 ∧
    healthy_area_spec 1 1 (fun _ _ => 6 / 10) = 100 := by
  constructor <;>
    norm_num [healthy_area, healthy_area_spec, pixels, Finset.range_one,
      Finset.singleton_product_singleton, Finset.filter_singleton]

/-- C2 as amended: the healthy percentage is the fraction of pixels whose
score is strictly greater than 0.6 times 100, and the stressed percentage
is the fraction of pixels whose score is strictly less than 0.3 times 100. -/
theorem c2_threshold_summary (r c : ℕ) (h : Raster) :
    healthy_area r c h = healthy_area_amended r c h ∧
    stressed_area r c h = stressed_area_spec r c h := by
  unfold healthy_area stressed_area healthy_area_amended stressed_area_spec
  rw [pixels_card]
  push_cast
  exact ⟨rfl, rfl⟩

/-- C3: the normalized difference is elementwise
`(a - b) / (a + b + 1e-10)`, unclamped, and on a cube with enough bands
the vegetation index is exactly this operation on bands 90 (NIR) and 50
(red) and the moisture index exactly this operation on bands 90 (NIR) and
150 (SWIR). -/
theorem c3_normalized_difference (a b : Raster) (i j : ℕ) (cube : Cube)
    (hb : 150 < cube.bands) :
    normalized_difference a b i j
      = (a i j - b i j) / (a i j + b i j + 1 / 10 ^ 10) ∧
    calculate_ndvi cube
      = some (normalized_difference
          (fun i j => cube.data i j 90) (fun i j => cube.data i j 50)) ∧
    calculate_ndwi cube
      = some (normalized_difference
          (fun i j => cube.data i j 90) (fun i j => cube.data i j 150)) := by
  have h50 : 50 < cube.bands := by omega
  have h90 : 90 < cube.bands := by omega
  refine ⟨rfl, ?_, ?_⟩ <;>
    simp [calculate_ndvi, calculate_ndwi, getBand, h50, h90, hb]

/-- A concrete 2×2×151 cube matching the spec's concrete scenario:
band 50 is 0.2 everywhere, band 90 is 0.8, band 150 is 0.1. -/
def demoCube : Cube :=
  ⟨151, fun _ _ b => if b = 50 then 2 / 10 else if b = 90 then 8 / 10 else 1 / 10⟩

/-- Witness for C3 at concrete inputs. -/
theorem c3_witness :
    normalized_difference (fun _ _ => 1) (fun _ _ => 2) 0 0
      = ((1 : ℚ) - 2) / (1 + 2 + 1 / 10 ^ 10) ∧
    calculate_ndvi demoCube
      = some (normalized_difference
          (fun i j => demoCube.data i j 90) (fun i j => demoCube.data i j 50)) ∧
    calculate_ndwi demoCube
      = some (normalized_difference
          (fun i j => demoCube.data i j 90) (fun i j => demoCube.data i j 150)) :=
  c3_normalized_difference (fun _ _ => 1) (fun _ _ => 2) 0 0 demoCube (by decide)

/-- C4: band extraction is bounds-checked: requesting band 200 on a cube
with at most 200 bands fails, and on any cube with fewer than 151 bands
the moisture index fails because band 150 is out of range. -/
theorem c4_band_out_of_range (cube : Cube) :
    (cube.bands ≤ 200 → getBand cube 200 = none) ∧
    (cube.bands < 151 → calculate_ndwi cube = none) := by
  constructor
  · intro h200
    simp [getBand, show ¬(200 < cube.bands) by omega]
  · intro h151
    have h150 : ¬(150 < cube.bands) := by omega
    unfold calculate_ndwi
    rcases Nat.lt_or_ge 90 cube.bands with h90 | h90
    · simp [getBand, h90, h150]
    · simp [getBand, show ¬(90 < cube.bands) by omega]

/-- A 151-band cube (the spec's concrete scenario for the bounds check). -/
def cube151 : Cube := ⟨151, fun _ _ _ => 1⟩

/-- A 100-band cube: bands 50 and 90 exist but band 150 does not. -/
def cube100 : Cube := ⟨100, fun _ _ _ => 1⟩

/-- Witness for C4: band 200 on a 151-band cube fails, and the moisture
index on a 100-band cube fails. -/
theorem c4_witness :
    getBand cube151 200 = none ∧ calculate_ndwi cube100 = none :=
  ⟨(c4_band_out_of_range cube151).1 (by decide),
   (c4_band_out_of_range cube100).2 (by decide)⟩

/-- C5: on a nonempty raster both threshold percentages lie in [0, 100]
and their sum is at most 100, since the two threshold predicates are
mutually exclusive. -/
theorem c5_percentages_bounded (r c : ℕ) (h : Raster) (hr : 0 < r) (hc : 0 < c) :
    0 ≤ healthy_area r c h ∧ healthy_area r c h ≤ 100 ∧
    0 ≤ stressed_area r c h ∧ stressed_area r c h ≤ 100 ∧
    healthy_area r c h + stressed_area r c h ≤ 100 := by
  have hN : (0 : ℚ) < (r : ℚ) * (c : ℚ) :=
    mul_pos (by exact_mod_cast hr) (by exact_mod_cast hc)
  have hH := Finset.card_filter_le (pixels r c) (fun p => (6 : ℚ) / 10 < h p.1 p.2)
  have hS := Finset.card_filter_le (pixels r c) (fun p => h p.1 p.2 < (3 : ℚ) / 10)
  rw [pixels_card] at hH hS
  have hdisj : Disjoint
      ((pixels r c).filter (fun p => (6 : ℚ) / 10 < h p.1 p.2))
      ((pixels r c).filter (fun p => h p.1 p.2 < (3 : ℚ) / 10)) := by
    rw [Finset.disjoint_filter]
    intro x _ hp hq
    linarith
  have hsum : ((pixels r c).filter (fun p => (6 : ℚ) / 10 < h p.1 p.2)).card
      + ((pixels r c).filter (fun p => h p.1 p.2 < (3 : ℚ) / 10)).card ≤ r * c := by
    rw [← Finset.card_union_of_disjoint hdisj]
    calc (((pixels r c).filter (fun p => (6 : ℚ) / 10 < h p.1 p.2))
            ∪ ((pixels r c).filter (fun p => h p.1 p.2 < (3 : ℚ) / 10))).card
        ≤ (pixels r c).card :=
          Finset.card_le_card
            (Finset.union_subset (Finset.filter_subset _ _) (Finset.filter_subset _ _))
      _ = r * c := pixels_card r c
  have haN : ((((pixels r c).filter (fun p => (6 : ℚ) / 10 < h p.1 p.2)).card : ℚ))
      ≤ (r : ℚ) * (c : ℚ) := by exact_mod_cast hH
  have hbN : ((((pixels r c).filter (fun p => h p.1 p.2 < (3 : ℚ) / 10)).card : ℚ))
      ≤ (r : ℚ) * (c : ℚ) := by exact_mod_cast hS
  have habN : ((((pixels r c).filter (fun p => (6 : ℚ) / 10 < h p.1 p.2)).card : ℚ))
      + ((((pixels r c).filter (fun p => h p.1 p.2 < (3 : ℚ) / 10)).card : ℚ))
      ≤ (r : ℚ) * (c : ℚ) := by exact_mod_cast hsum
  unfold healthy_area stressed_area
  refine ⟨by positivity, ?_, by positivity, ?_, ?_⟩
  · rw [div_mul_eq_mul_div, div_le_iff₀ hN]
    linarith
  · rw [div_mul_eq_mul_div, div_le_iff₀ hN]
    linarith
  · rw [div_mul_eq_mul_div, div_mul_eq_mul_div, div_add_div_same, div_le_iff₀ hN]
    linarith

/-- Witness for C5 on a concrete 1×1 raster. -/
theorem c5_witness :
    0 ≤ healthy_area 1 1 (fun _ _ => 1 / 2) ∧
    healthy_area 1 1 (fun _ _ => 1 / 2) ≤ 100 ∧
    0 ≤ stressed_area 1 1 (fun _ _ => 1 / 2) ∧
    stressed_area 1 1 (fun _ _ => 1 / 2) ≤ 100 ∧
    healthy_area 1 1 (fun _ _ => 1 / 2)
      + stressed_area 1 1 (fun _ _ => 1 / 2) ≤ 100 :=
  c5_percentages_bounded 1 1 (fun _ _ => 1 / 2) (by decide) (by decide)

/-- C6: the normalized difference is antisymmetric in its two band
arguments at every pixel, exactly (the ε term is identical in both
denominators). -/
theorem c6_antisymmetry (a b : Raster) (i j : ℕ) :
    normalized_difference a b i j = - normalized_difference b a i j := by
  unfold normalized_difference
  rw [add_comm (b i j) (a i j), ← neg_div, neg_sub]

/-- C7: wherever the vegetation index is non-negative, the fused health
score does not exceed it, because the moisture multiplier lies in [0, 1]. -/
theorem c7_health_le_ndvi (ndvi ndwi : Raster) (i j : ℕ) (h : 0 ≤ ndvi i j) :
    create_health_map ndvi ndwi i j ≤ ndvi i j := by
  have h1 : np_clip (ndwi i j) 0 1 ≤ 1 := min_le_right _ _
  have h2 : 0 ≤ np_clip (ndwi i j) 0 1 := le_min (le_max_right _ _) zero_le_one
  unfold create_health_map
  exact mul_le_of_le_one_right h (by linarith)

/-- Witness for C7 on concrete rasters. -/
theorem c7_witness :
    create_health_map (fun _ _ => 1 / 2) (fun _ _ => 1 / 4) 0 0 ≤ (1 : ℚ) / 2 :=
  c7_health_le_ndvi (fun _ _ => 1 / 2) (fun _ _ => 1 / 4) 0 0 (by norm_num)

/-- C8: if the NIR band (90) equals the red band (50) at every pixel, the
vegetation index raster is exactly zero everywhere. -/
theorem c8_ndvi_zero (cube : Cube) (hb : 90 < cube.bands)
    (heq : ∀ i j, cube.data i j 90 = cube.data i j 50) :
    calculate_ndvi cube = some (fun _ _ => 0) := by
  have h50 : 50 < cube.bands := by omega
  simp only [calculate_ndvi, getBand, if_pos h50, if_pos hb, Option.bind_eq_bind,
    Option.some_bind, Option.map_some', Option.some.injEq]
  funext i j
  simp [normalized_difference, heq i j]

/-- A 91-band cube with constant samples, so its NIR and red bands agree. -/
def constCube : Cube := ⟨91, fun _ _ _ => 3⟩

/-- Witness for C8 on the constant cube. -/
theorem c8_witness : calculate_ndvi constCube = some (fun _ _ => 0) :=
  c8_ndvi_zero constCube (by decide) (fun _ _ => rfl)

/-- C9: at a pixel where the two operand bands sum exactly to zero, the
denominator is exactly ε = 1e-10 (never zero, so the value is a finite
rational) and the value is the numerator scaled by 1/ε = 1e10. -/
theorem c9_eps_guard (a b : Raster) (i j : ℕ) (hsum : a i j + b i j = 0) :
    a i j + b i j + eps ≠ 0 ∧
    normalized_difference a b i j = (a i j - b i j) * 10 ^ 10 := by
  have hd : a i j + b i j + eps = eps := by rw [hsum, zero_add]
  constructor
  · rw [hd]
    norm_num [eps]
  · unfold normalized_difference
    rw [hd]
    unfold eps
    rw [div_div_eq_mul_div, div_one]

/-- Witness for C9 at NIR = 5, red = -5: denominator is nonzero and the
value is (5 - (-5)) * 1e10 = 1e11. -/
theorem c9_witness :
    ((5 : ℚ) + (-5) + eps ≠ 0 ∧
     normalized_difference (fun _ _ => (5 : ℚ)) (fun _ _ => (-5 : ℚ)) 0 0
       = ((5 : ℚ) - (-5)) * 10 ^ 10) ∧
    ((5 : ℚ) - (-5)) * 10 ^ 10 = 10 ^ 11 :=
  ⟨c9_eps_guard (fun _ _ => (5 : ℚ)) (fun _ _ => (-5 : ℚ)) 0 0 (by norm_num),
   by norm_num⟩

/-- C10: where the moisture index is at least 1 the health score is
exactly 0 (the clamp saturates at 1), and where it is at most 0 the
health score equals the vegetation index exactly. -/
theorem c10_saturation (ndvi ndwi : Raster) (i j : ℕ) :
    (1 ≤ ndwi i j → create_health_map ndvi ndwi i j = 0) ∧
    (ndwi i j ≤ 0 → create_health_map ndvi ndwi i j = ndvi i j) := by
  unfold create_health_map np_clip
  constructor
  · intro h1
    rw [max_eq_left (le_trans zero_le_one h1), min_eq_right h1]
    ring
  · intro h0
    rw [max_eq_right h0, min_eq_left zero_le_one]
    ring

/-- Witness for C10: ndwi = 2 annihilates the score, ndwi = -1 leaves the
vegetation index unchanged. -/
theorem c10_witness :
    create_health_map (fun _ _ => (1 : ℚ) / 2) (fun _ _ => (2 : ℚ)) 0 0 = 0 ∧
    create_health_map (fun _ _ => (1 : ℚ) / 2) (fun _ _ => (-1 : ℚ)) 0 0
      = (1 : ℚ) / 2 :=
  ⟨(c10_saturation (fun _ _ => (1 : ℚ) / 2) (fun _ _ => (2 : ℚ)) 0 0).1 (by norm_num),
   (c10_saturation (fun _ _ => (1 : ℚ) / 2) (fun _ _ => (-1 : ℚ)) 0 0).2 (by norm_num)⟩
